import Mathlib

/-!
Shallow embedding of the cart-pricing / coupon / checkout core of the
snuggle_backend e-commerce service (src/app/services/cart_service.py,
src/app/routes/orders.py, src/app/routes/cart.py,
src/app/routes/product_enhanced.py).

Modelling conventions:
* Python floats holding currency amounts are modelled as rationals (ℚ).
  `round(x, n)` is modelled as exact rational rounding to n decimal places
  (Lean's `round`, half away from zero); the Python runtime uses binary
  floating point with ties-to-even, a representation detail the claims
  under study do not constrain.
* Database rows are Lean structures; a table is a `List` of rows.
  SQLAlchemy's identity map guarantees one in-session object per primary
  key, so a mutation of `item.product` is modelled by updating the (first)
  list entry with the matching id.
* A request handler is a function from the database state to a pair of
  an `Except`-style result and the state visible after the request.
  The session given out by `get_db` (src/app/database.py) is never
  committed when a handler raises before its `commit()` call, so every
  error branch returns the entry state unchanged (transaction rollback).
* Nullable columns that the source explicitly branches on via Python
  truthiness (`expiry_date`, `min_cart_value`, `max_discount`,
  `usage_count`) are `Option`s; nullable columns whose NULL value would
  make the source crash with a TypeError before producing any behaviour
  covered by a claim (`Coupon.value`, `Coupon.code`) are kept plain.
-/

namespace Snuggle

/-- `round(x, 2)` on a currency amount, as exact rational rounding. -/
def round2 (q : ℚ) : ℚ := (round (q * 100) : ℤ) / 100

/-- `round(x, 1)`, used for the product rating aggregate. -/
def round1 (q : ℚ) : ℚ := (round (q * 10) : ℤ) / 10

/-- Row of the `products` table (src/app/models.py, class Product);
only the columns the modelled handlers read or write. -/
structure Product where
  id : ℕ
  name : String
  price : ℚ
  stock : ℤ
  average_rating : ℚ
  review_count : ℕ
  deriving Repr, DecidableEq

/-- Row of the `cart_items` table (class CartItem). -/
structure CartItem where
  id : ℕ
  product_id : ℕ
  quantity : ℤ
  deriving Repr, DecidableEq

/-- Row of the `coupons` table (class Coupon). -/
structure Coupon where
  code : String
  discount_type : String
  value : ℚ
  usage_count : Option ℤ
  is_active : Bool
  expiry_date : Option String
  min_cart_value : Option ℚ
  max_discount : Option ℚ
  deriving Repr, DecidableEq

/-- Row of the `coupon_usage` table (class CouponUsage), as read by
`calculate_shipping`. -/
structure CouponUsage where
  user_id : ℕ
  coupon_type : String
  deriving Repr, DecidableEq

/-- Row of the `cart_settings` table (class CartSettings), as read by
`get_cart_summary`. -/
structure CartSettings where
  is_gift : Bool
  gift_message : Option String
  coupon_applied : Option String
  deriving Repr, DecidableEq

/-- Row of the `order_items` table (class OrderItem). -/
structure OrderItem where
  product_id : ℕ
  quantity : ℤ
  price_at_purchase : ℚ
  deriving Repr, DecidableEq

/-- Row of the `orders` table (class Order); `user_id` is implicit in the
per-user database slice below. -/
structure Order where
  address_id : ℕ
  total_amount : ℚ
  payment_method : String
  status : String
  created_at : String
  items : List OrderItem
  deriving Repr, DecidableEq

/-- Row of the `product_reviews` table (class ProductReview); only the
columns `add_product_review` branches on. -/
structure ReviewRow where
  product_id : ℕ
  user_id : ℕ
  rating : ℤ
  deriving Repr, DecidableEq

/-- The database slice the modelled handlers touch, for one user: their
cart items, the product catalog, the coupon table, the coupon-usage
table and their cart settings. -/
structure DB where
  products : List Product
  cartItems : List CartItem
  coupons : List Coupon
  couponUsages : List CouponUsage
  settings : Option CartSettings
  reviews : List ReviewRow
  deriving Repr, DecidableEq

/-- The distinct validation failures of `CartService.apply_coupon`
(each a `ValueError` in the source). -/
inductive CouponError where
  | couponNotFound
  | couponExpired
  | minimumCartValueNotMet
  | usageLimitReached
  deriving Repr, DecidableEq

/-- The failures of `place_order` (each an `HTTPException(400)` in the
source); `productMissing` stands for the crash the source would hit if a
cart item referenced a nonexistent product. -/
inductive OrderError where
  | emptyCart
  | outOfStock (name : String)
  | productMissing
  deriving Repr, DecidableEq

/-- The failures of `add_product_review`. -/
inductive ReviewError where
  | productNotFound
  | alreadyReviewed
  deriving Repr, DecidableEq

/-- `CartService.calculate_shipping` (cart_service.py lines 12-32):
free over 1000, else free when the user holds a "free_shipping" usage
record, else a flat 99. -/
def calculate_shipping (subtotal : ℚ) (user_id : ℕ)
    (usages : List CouponUsage) : ℚ :=
  if 1000 ≤ subtotal then 0
  else if usages.any (fun u => u.user_id == user_id &&
      u.coupon_type == "free_shipping") then 0
  else 99

/-- `CartService.calculate_tax` (cart_service.py lines 34-38):
18% GST on the discounted amount, rounded to 2 decimals. -/
def calculate_tax (subtotal : ℚ) (discount : ℚ) : ℚ :=
  round2 ((subtotal - discount) * (18 / 100))

/-- ASCII uppercasing of one character, modelling Python `str.upper()`
on the ASCII coupon codes this system stores. -/
def py_upper_char (c : Char) : Char :=
  if 'a' ≤ c ∧ c ≤ 'z' then Char.ofNat (c.toNat - 32) else c

/-- `code.upper()` (cart_service.py line 50). -/
def py_upper (s : String) : String := ⟨s.data.map py_upper_char⟩

/-- The WHERE clause of the coupon lookup in `apply_coupon`
(cart_service.py lines 48-53): code equals the normalized query and
`is_active == True`. -/
def coupon_matches (q : String) (c : Coupon) : Bool :=
  c.code == q && c.is_active

/-- The expiry test of `apply_coupon` (line 60):
`coupon.expiry_date and str(coupon.expiry_date) < str(today)`.
Python truthiness makes `None` and the empty string count as "no
expiry"; the comparison is lexicographic on the stored strings. -/
def expiry_passed (today : String) (c : Coupon) : Bool :=
  match c.expiry_date with
  | none => false
  | some e => e != "" && decide (e < today)

/-- The minimum-cart-value test of `apply_coupon` (line 64):
`subtotal < (coupon.min_cart_value or 0)`; `or 0` sends both `None`
and `0.0` to `0`, numerically `getD 0`. -/
def below_min_cart (subtotal : ℚ) (c : Coupon) : Bool :=
  decide (subtotal < c.min_cart_value.getD 0)

/-- The usage-ceiling test of `apply_coupon` (line 69):
`coupon.usage_count and coupon.usage_count >= 1000`; `None` and `0`
are falsy and skip the test. -/
def usage_limit_reached (c : Coupon) : Bool :=
  match c.usage_count with
  | none => false
  | some n => n != 0 && decide (1000 ≤ n)

/-- The discount computation of `apply_coupon` (lines 73-79):
percentage coupons are `subtotal * value / 100`, capped by
`max_discount` only when that column is truthy (present and nonzero);
every other `discount_type` takes the `fixed` branch
`min(value, subtotal)`. -/
def coupon_discount (subtotal : ℚ) (c : Coupon) : ℚ :=
  if c.discount_type == "percentage" then
    let d := subtotal * (c.value / 100)
    match c.max_discount with
    | none => d
    | some m => if m == 0 then d else min d m
  else
    min c.value subtotal

/-- `coupon.usage_count = (coupon.usage_count or initialize 0) + 1`
(lines 82-84). -/
def increment_usage (c : Coupon) : Coupon :=
  { c with usage_count := some (c.usage_count.getD 0 + 1) }

/-- In-place mutation of the matched session object, seen at table
level: the first row satisfying the lookup predicate gets its
`usage_count` bumped. -/
def bump_usage (q : String) : List Coupon → List Coupon
  | [] => []
  | c :: rest =>
    if coupon_matches q c then increment_usage c :: rest
    else c :: bump_usage q rest

/-- Lookup of the product row a cart item's `product` relationship
resolves to (primary-key lookup, so the first match is the row). -/
def find_product (ps : List Product) (pid : ℕ) : Option Product :=
  ps.find? (fun p => p.id == pid)

/-- In-place mutation of a session product object, seen at table level:
the (first) row with the given id is rewritten. -/
def update_product (ps : List Product) (pid : ℕ) (f : Product → Product) :
    List Product :=
  match ps with
  | [] => []
  | p :: rest =>
    if p.id == pid then f p :: rest
    else p :: update_product rest pid f

/-- The per-item loop of `place_order` (orders.py lines 35-53): check
stock, accumulate the raw total, decrement stock
(`item.product.stock -= item.quantity`), and snapshot an OrderItem
with `price_at_purchase` = the product's current price. The first
understocked item aborts the loop with `Out of stock: <name>`. -/
def checkout_items : List CartItem → List Product →
    Except OrderError (ℚ × List OrderItem × List Product)
  | [], ps => .ok (0, [], ps)
  | i :: rest, ps =>
    match find_product ps i.product_id with
    | none => .error .productMissing
    | some p =>
      if p.stock < i.quantity then .error (.outOfStock p.name)
      else
        match checkout_items rest
            (update_product ps i.product_id
              (fun q => { q with stock := q.stock - i.quantity })) with
        | .error e => .error e
        | .ok (t, ois, ps') =>
          .ok (p.price * (i.quantity : ℚ) + t,
               ⟨i.product_id, i.quantity, p.price⟩ :: ois, ps')

/-- `place_order` (orders.py lines 14-89): empty-cart guard, the
per-item loop, order creation with status `"Pending"`, cart emptying,
then a single commit. A raise before the commit leaves the stored
state unchanged, so every error branch returns the entry `DB`. -/
def place_order (address_id : ℕ) (payment_method : String)
    (created_at : String) (db : DB) : Except OrderError Order × DB :=
  if db.cartItems.isEmpty then (.error .emptyCart, db)
  else
    match checkout_items db.cartItems db.products with
    | .error e => (.error e, db)
    | .ok (total, ois, ps') =>
      (.ok ⟨address_id, total, payment_method, "Pending", created_at, ois⟩,
       { db with products := ps', cartItems := [] })

/-- The product price a cart item sees at a given table state (claims
quantify over items whose product lookup succeeds, where the default
is never taken). -/
def price_at (ps : List Product) (pid : ℕ) : ℚ :=
  ((find_product ps pid).map (fun p => p.price)).getD 0

/-- `CartService.apply_coupon` (cart_service.py lines 40-88).
Returns the result the caller sees and the coupon table after the
call; each `raise ValueError` happens before the mutation at lines
82-86, so every error branch leaves the table untouched. `today` is
the clock input `datetime.now().date()` rendered as a string. -/
def apply_coupon (today : String) (code : String) (subtotal : ℚ)
    (coupons : List Coupon) :
    Except CouponError (ℚ × String × String) × List Coupon :=
  match coupons.find? (coupon_matches (py_upper code)) with
  | none => (.error .couponNotFound, coupons)
  | some c =>
    if expiry_passed today c then (.error .couponExpired, coupons)
    else if below_min_cart subtotal c then
      (.error .minimumCartValueNotMet, coupons)
    else if usage_limit_reached c then (.error .usageLimitReached, coupons)
    else
      (.ok (coupon_discount subtotal c, c.discount_type, c.code),
       bump_usage (py_upper code) coupons)

/-- `subtotal = sum(item.product.price * item.quantity for item in
cart.items)` (cart_service.py line 117); `none` stands for the
AttributeError the source would hit on a dangling product reference. -/
def cart_subtotal : List CartItem → List Product → Option ℚ
  | [], _ => some 0
  | i :: rest, ps =>
    match find_product ps i.product_id, cart_subtotal rest ps with
    | some p, some t => some (p.price * (i.quantity : ℚ) + t)
    | _, _ => none

/-- The dict returned by `CartService.get_cart_summary`. The empty-cart
early return (lines 105-114) carries no gift or coupon keys; those
fields are `false`/`none` there. -/
structure Summary where
  subtotal : ℚ
  shipping : ℚ
  tax : ℚ
  discount : ℚ
  total : ℚ
  item_count : ℕ
  is_free_shipping : Bool
  is_gift : Bool
  gift_message : Option String
  coupon_applied : Option String
  deriving Repr, DecidableEq

/-- `CartService.get_cart_summary` (cart_service.py lines 90-157):
empty cart short-circuits to the all-zero summary; otherwise the
subtotal is computed, a supplied coupon is applied with its
`ValueError` swallowed into `discount = 0` (lines 123-129), then
shipping, tax and total are assembled and every money field rounded.
Returns `none` only on a dangling product reference (a crash in the
source). -/
def get_cart_summary (user_id : ℕ) (today : String) (db : DB)
    (coupon_code : Option String) : Option (Summary × DB) :=
  if db.cartItems.isEmpty then
    some ({ subtotal := 0, shipping := 0, tax := 0, discount := 0,
            total := 0, item_count := 0, is_free_shipping := true,
            is_gift := false, gift_message := none,
            coupon_applied := none }, db)
  else
    match cart_subtotal db.cartItems db.products with
    | none => none
    | some subtotal =>
      let step : (ℚ × Option String) × List Coupon :=
        match coupon_code with
        | none => ((0, none), db.coupons)
        | some code =>
          match apply_coupon today code subtotal db.coupons with
          | (.ok (d, _ty, co), cs') => ((d, some co), cs')
          | (.error _, cs') => ((0, none), cs')
      let discount := step.1.1
      let shipping := calculate_shipping subtotal user_id db.couponUsages
      let tax := calculate_tax subtotal discount
      let total := subtotal - discount + shipping + tax
      some ({ subtotal := round2 subtotal, shipping := round2 shipping,
              tax := round2 tax, discount := round2 discount,
              total := round2 total, item_count := db.cartItems.length,
              is_free_shipping := shipping == 0,
              is_gift := (db.settings.map (fun st => st.is_gift)).getD false,
              gift_message := db.settings.bind (fun st => st.gift_message),
              coupon_applied := step.1.2 },
            { db with coupons := step.2 })

/-- `add_product_review` (product_enhanced.py lines 80-133): 404 when
the product is missing, 400 when the user already reviewed it;
otherwise insert the review and fold the new rating into the product's
`average_rating`/`review_count` (lines 121-127). -/
def add_product_review (product_id : ℕ) (user_id : ℕ) (rating : ℤ)
    (db : DB) : Except ReviewError ReviewRow × DB :=
  match find_product db.products product_id with
  | none => (.error .productNotFound, db)
  | some p =>
    if db.reviews.any (fun r => r.product_id == product_id &&
        r.user_id == user_id) then
      (.error .alreadyReviewed, db)
    else
      let total_reviews := p.review_count + 1
      let total_rating := p.average_rating * (p.review_count : ℚ) + (rating : ℚ)
      let new_average := total_rating / (total_reviews : ℚ)
      let new_review : ReviewRow := ⟨product_id, user_id, rating⟩
      (.ok new_review,
       { db with
          products := update_product db.products product_id
            (fun q => { q with average_rating := round1 new_average,
                               review_count := total_reviews }),
          reviews := db.reviews ++ [new_review] })

/-- In-place quantity update of a cart-item session object, seen at
table level. -/
def set_cart_item_qty (items : List CartItem) (item_id : ℕ) (qty : ℤ) :
    List CartItem :=
  match items with
  | [] => []
  | i :: rest =>
    if i.id == item_id then { i with quantity := qty } :: rest
    else i :: set_cart_item_qty rest item_id qty

/-- `update_cart_item_quantity` (cart.py lines 88-117): 404 when the
item is not in the user's cart; requested quantity > 0 stores exactly
that quantity; otherwise the row is deleted (`id` is the primary key,
so deleting the object filters its id out of the table). -/
def update_cart_item_quantity (item_id : ℕ) (qty : ℤ) (db : DB) :
    Except String String × DB :=
  match db.cartItems.find? (fun i => i.id == item_id) with
  | none => (.error "Item not found in cart", db)
  | some _ =>
    if 0 < qty then
      (.ok "Quantity updated",
       { db with cartItems := set_cart_item_qty db.cartItems item_id qty })
    else
      (.ok "Item removed",
       { db with cartItems :=
          db.cartItems.filter (fun i => !(i.id == item_id)) })

end Snuggle

namespace Snuggle

/-- Claim C7 is about this theorem's subject `calculate_shipping`. -/
theorem calculate_shipping_spec (s : ℚ) (uid : ℕ) (usages : List CouponUsage) :
    (1000 ≤ s → calculate_shipping s uid usages = 0) ∧
    (s < 1000 →
      (¬ ∃ u ∈ usages, u.user_id = uid ∧ u.coupon_type = "free_shipping") →
      calculate_shipping s uid usages = 99) ∧
    ((∃ u ∈ usages, u.user_id = uid ∧ u.coupon_type = "free_shipping") →
      calculate_shipping s uid usages = 0) := by
  refine ⟨fun h => ?_, fun h hno => ?_, fun hyes => ?_⟩
  · simp [calculate_shipping, h]
  · have hlt : ¬ (1000 ≤ s) := not_le.mpr h
    have hany : usages.any (fun u => u.user_id == uid &&
        u.coupon_type == "free_shipping") = false := by
      rw [List.any_eq_false]
      intro u hu
      simp only [Bool.and_eq_true, beq_iff_eq, not_and]
      intro h1 h2
      exact hno ⟨u, hu, h1, h2⟩
    simp [calculate_shipping, hlt, hany]
  · by_cases h1000 : 1000 ≤ s
    · simp [calculate_shipping, h1000]
    · have hany : usages.any (fun u => u.user_id == uid &&
          u.coupon_type == "free_shipping") = true := by
        rw [List.any_eq_true]
        obtain ⟨u, hu, h1, h2⟩ := hyes
        exact ⟨u, hu, by simp [h1, h2]⟩
      simp [calculate_shipping, h1000, hany]

theorem calculate_shipping_spec_witness :
    ((1000 : ℚ) ≤ 1200 ∧ calculate_shipping 1200 7 [] = 0) ∧
    ((500 : ℚ) < 1000 ∧ calculate_shipping 500 7 [] = 99) ∧
    calculate_shipping 500 7 [⟨7, "free_shipping"⟩] = 0 :=
  ⟨⟨by norm_num, (calculate_shipping_spec 1200 7 []).1 (by norm_num)⟩,
   ⟨by norm_num, (calculate_shipping_spec 500 7 []).2.1 (by norm_num)
      (by simp)⟩,
   (calculate_shipping_spec 500 7 [⟨7, "free_shipping"⟩]).2.2
      ⟨⟨7, "free_shipping"⟩, by simp, rfl, rfl⟩⟩

/-- Rounding a non-negative rational yields a non-negative integer. -/
theorem round_nonneg_of_nonneg (q : ℚ) (h : 0 ≤ q) : (0 : ℤ) ≤ round q := by
  rw [round_eq]
  rw [Int.le_floor]
  push_cast
  linarith

/-- `round2` preserves non-negativity. -/
theorem round2_nonneg (q : ℚ) (h : 0 ≤ q) : 0 ≤ round2 q := by
  unfold round2
  have h1 : (0 : ℚ) ≤ q * 100 := by positivity
  have h2 := round_nonneg_of_nonneg (q * 100) h1
  have h3 : (0 : ℚ) ≤ ((round (q * 100) : ℤ) : ℚ) := by exact_mod_cast h2
  positivity

/-- Claim C8: for `0 ≤ discount ≤ subtotal`, the tax is
`round((subtotal − discount) × 0.18, 2)` and is non-negative. -/
theorem calculate_tax_spec (s d : ℚ) (hd : 0 ≤ d) (hds : d ≤ s) :
    calculate_tax s d = round2 ((s - d) * (18 / 100)) ∧
    0 ≤ calculate_tax s d := by
  refine ⟨rfl, ?_⟩
  have htax : (0 : ℚ) ≤ (s - d) * (18 / 100) := by
    have : (0 : ℚ) ≤ s - d := by linarith
    positivity
  exact round2_nonneg _ htax

theorem calculate_tax_spec_witness :
    (0 : ℚ) ≤ 0 ∧ (0 : ℚ) ≤ 500 ∧
    (calculate_tax 500 0 = round2 ((500 - 0) * (18 / 100)) ∧
      0 ≤ calculate_tax 500 0) :=
  ⟨le_refl 0, by norm_num, calculate_tax_spec 500 0 (le_refl 0) (by norm_num)⟩

/-- The truthy expiry check, in claim-level terms: an expiry string is
stored, non-empty, and lexicographically before today. -/
theorem expiry_passed_iff (today : String) (c : Coupon) :
    expiry_passed today c = true ↔
      ∃ e, c.expiry_date = some e ∧ e ≠ "" ∧ e < today := by
  unfold expiry_passed
  cases h : c.expiry_date with
  | none => simp
  | some e => simp [bne_iff_ne]

/-- The truthy usage-ceiling check, in claim-level terms: the stored
count (absent read as 0) has reached 1000. -/
theorem usage_limit_reached_iff (c : Coupon) :
    usage_limit_reached c = true ↔ 1000 ≤ c.usage_count.getD 0 := by
  unfold usage_limit_reached
  cases h : c.usage_count with
  | none => simp
  | some n =>
    simp only [Option.getD_some, Bool.and_eq_true, bne_iff_ne,
      decide_eq_true_eq]
    constructor
    · exact fun ⟨_, h2⟩ => h2
    · exact fun h2 => ⟨by omega, h2⟩

theorem below_min_cart_iff (s : ℚ) (c : Coupon) :
    below_min_cart s c = true ↔ s < c.min_cart_value.getD 0 := by
  simp [below_min_cart]

/-- Claim C4: `apply_coupon` fails exactly when no active coupon
matches the uppercased code, or the matched coupon has a (truthy)
expiry strictly before today, a minimum cart value above the subtotal
(absent read as 0), or a usage count at the 1000 ceiling; and each
returned error implies its corresponding condition (checked in source
order). -/
theorem apply_coupon_failure_spec (today code : String) (s : ℚ)
    (cs : List Coupon) :
    ((∃ e, (apply_coupon today code s cs).1 = .error e) ↔
      (cs.find? (coupon_matches (py_upper code)) = none ∨
        ∃ c, cs.find? (coupon_matches (py_upper code)) = some c ∧
          ((∃ e, c.expiry_date = some e ∧ e ≠ "" ∧ e < today) ∨
            s < c.min_cart_value.getD 0 ∨
            1000 ≤ c.usage_count.getD 0))) ∧
    ((apply_coupon today code s cs).1 = .error .couponNotFound ↔
      cs.find? (coupon_matches (py_upper code)) = none) ∧
    ((apply_coupon today code s cs).1 = .error .couponExpired →
      ∃ c, cs.find? (coupon_matches (py_upper code)) = some c ∧
        ∃ e, c.expiry_date = some e ∧ e ≠ "" ∧ e < today) ∧
    ((apply_coupon today code s cs).1 = .error .minimumCartValueNotMet →
      ∃ c, cs.find? (coupon_matches (py_upper code)) = some c ∧
        s < c.min_cart_value.getD 0) ∧
    ((apply_coupon today code s cs).1 = .error .usageLimitReached →
      ∃ c, cs.find? (coupon_matches (py_upper code)) = some c ∧
        1000 ≤ c.usage_count.getD 0) := by
  cases hf : cs.find? (coupon_matches (py_upper code)) with
  | none =>
    have hr : (apply_coupon today code s cs).1 = .error .couponNotFound := by
      simp [apply_coupon, hf]
    refine ⟨⟨fun _ => Or.inl rfl, fun _ => ⟨_, hr⟩⟩, ⟨fun _ => rfl, fun _ => hr⟩,
      ?_, ?_, ?_⟩ <;>
      · intro h
        rw [hr] at h
        simp at h
  | some c =>
    by_cases h1 : expiry_passed today c = true
    · have hc1 := (expiry_passed_iff today c).mp h1
      have hr : (apply_coupon today code s cs).1 = .error .couponExpired := by
        simp [apply_coupon, hf, h1]
      refine ⟨⟨fun _ => Or.inr ⟨c, rfl, Or.inl hc1⟩, fun _ => ⟨_, hr⟩⟩,
        ?_, fun _ => ⟨c, rfl, hc1⟩, ?_, ?_⟩
      · constructor
        · intro h
          rw [hr] at h
          simp at h
        · intro h
          exact absurd h (by simp)
      all_goals
        intro h
        rw [hr] at h
        simp at h
    · by_cases h2 : below_min_cart s c = true
      · have hc2 := (below_min_cart_iff s c).mp h2
        have hr : (apply_coupon today code s cs).1 =
            .error .minimumCartValueNotMet := by
          simp [apply_coupon, hf, h1, h2]
        refine ⟨⟨fun _ => Or.inr ⟨c, rfl, Or.inr (Or.inl hc2)⟩,
          fun _ => ⟨_, hr⟩⟩, ?_, ?_, fun _ => ⟨c, rfl, hc2⟩, ?_⟩
        · constructor
          · intro h
            rw [hr] at h
            simp at h
          · intro h
            exact absurd h (by simp)
        all_goals
          intro h
          rw [hr] at h
          simp at h
      · by_cases h3 : usage_limit_reached c = true
        · have hc3 := (usage_limit_reached_iff c).mp h3
          have hr : (apply_coupon today code s cs).1 =
              .error .usageLimitReached := by
            simp [apply_coupon, hf, h1, h2, h3]
          refine ⟨⟨fun _ => Or.inr ⟨c, rfl, Or.inr (Or.inr hc3)⟩,
            fun _ => ⟨_, hr⟩⟩, ?_, ?_, ?_, fun _ => ⟨c, rfl, hc3⟩⟩
          · constructor
            · intro h
              rw [hr] at h
              simp at h
            · intro h
              exact absurd h (by simp)
          all_goals
            intro h
            rw [hr] at h
            simp at h
        · have hnc1 : ¬ ∃ e, c.expiry_date = some e ∧ e ≠ "" ∧ e < today :=
            fun hx => h1 ((expiry_passed_iff today c).mpr hx)
          have hnc2 : ¬ s < c.min_cart_value.getD 0 :=
            fun hx => h2 ((below_min_cart_iff s c).mpr hx)
          have hnc3 : ¬ 1000 ≤ c.usage_count.getD 0 :=
            fun hx => h3 ((usage_limit_reached_iff c).mpr hx)
          have hr : (apply_coupon today code s cs).1 =
              .ok (coupon_discount s c, c.discount_type, c.code) := by
            simp [apply_coupon, hf, h1, h2, h3]
          have hok : ¬ ∃ e, (apply_coupon today code s cs).1 = .error e := by
            rintro ⟨e, he⟩
            rw [hr] at he
            simp at he
          refine ⟨iff_of_false hok ?_, ?_, ?_, ?_, ?_⟩
          · rintro (hn | ⟨c', hc', hcond⟩)
            · simp at hn
            · injection hc' with hcc
              subst hcc
              rcases hcond with h | h | h
              · exact hnc1 h
              · exact hnc2 h
              · exact hnc3 h
          · exact iff_of_false (fun h => hok ⟨_, h⟩) (fun hn => by simp at hn)
          all_goals
            intro h
            exact absurd ⟨_, h⟩ hok

theorem apply_coupon_failure_spec_witness :
    (apply_coupon "2026-01-01" "X" 100 []).1 =
      Except.error CouponError.couponNotFound :=
  (apply_coupon_failure_spec "2026-01-01" "X" 100 []).2.1.mpr rfl

/-- Counterexample to claim C3 as stated: a percentage coupon whose
`max_discount` column is present but `0` is NOT capped (Python
truthiness skips the cap), so the discount is 10, not
`min(subtotal × value/100, max_discount) = 0`. -/
theorem apply_coupon_max_discount_zero_cex :
    (apply_coupon "2026-01-01" "SAVE10" 100
        [⟨"SAVE10", "percentage", 10, none, true, none, none, some 0⟩]).1 =
      .ok (10, "percentage", "SAVE10") ∧
    (10 : ℚ) ≠ min (100 * ((10 : ℚ) / 100)) 0 := by
  have hup : py_upper "SAVE10" = "SAVE10" := by decide
  constructor
  · simp only [apply_coupon, List.find?, hup, coupon_matches]
    norm_num [expiry_passed, below_min_cart, usage_limit_reached,
      coupon_discount]
  · norm_num

/-- Claim C3 (amended): for a coupon that passes validation,
a percentage coupon discounts `subtotal × value/100`, capped at
`max_discount` when that column is present and nonzero (uncapped when
absent or zero); a fixed coupon discounts `min(value, subtotal)`. -/
theorem apply_coupon_discount_spec (today code : String) (s : ℚ)
    (cs : List Coupon) (c : Coupon)
    (hfind : cs.find? (coupon_matches (py_upper code)) = some c)
    (h1 : expiry_passed today c = false)
    (h2 : below_min_cart s c = false)
    (h3 : usage_limit_reached c = false) :
    (c.discount_type = "percentage" →
      (apply_coupon today code s cs).1 =
        .ok ((match c.max_discount with
              | none => s * (c.value / 100)
              | some m =>
                if m = 0 then s * (c.value / 100)
                else min (s * (c.value / 100)) m),
             "percentage", c.code)) ∧
    (c.discount_type = "fixed" →
      (apply_coupon today code s cs).1 = .ok (min c.value s, "fixed", c.code)) := by
  constructor
  · intro hp
    simp [apply_coupon, hfind, h1, h2, h3, coupon_discount, hp]
  · intro hp
    have hne : c.discount_type ≠ "percentage" := by simp [hp]
    simp [apply_coupon, hfind, h1, h2, h3, coupon_discount, hp, hne]

theorem apply_coupon_discount_spec_witness :
    (apply_coupon "2026-01-01" "PCT" 100
        [⟨"PCT", "percentage", 10, none, true, none, none, some 5⟩]).1 =
      .ok (5, "percentage", "PCT") := by
  have h := (apply_coupon_discount_spec "2026-01-01" "PCT" 100
      [⟨"PCT", "percentage", 10, none, true, none, none, some 5⟩]
      ⟨"PCT", "percentage", 10, none, true, none, none, some 5⟩
      (by decide) (by decide) (by decide) (by decide)).1 rfl
  rw [h]
  norm_num

/-- Decomposition of a successful coupon lookup: the table splits
around the first matching row, and `bump_usage` rewrites exactly that
row. -/
theorem find?_bump_usage_decomp (q : String) (cs : List Coupon) (c : Coupon)
    (h : cs.find? (coupon_matches q) = some c) :
    ∃ pre post, cs = pre ++ c :: post ∧
      (∀ c' ∈ pre, coupon_matches q c' = false) ∧
      bump_usage q cs = pre ++ increment_usage c :: post := by
  induction cs with
  | nil => simp at h
  | cons a rest ih =>
    by_cases hm : coupon_matches q a
    · rw [List.find?_cons_of_pos _ hm] at h
      obtain rfl : a = c := by injection h
      exact ⟨[], rest, rfl, by simp, by simp [bump_usage, hm]⟩
    · rw [List.find?_cons_of_neg _ (by simpa using hm)] at h
      obtain ⟨pre, post, hsplit, hpre, hbump⟩ := ih h
      refine ⟨a :: pre, post, by simp [hsplit], ?_, ?_⟩
      · intro c' hc'
        rcases List.mem_cons.mp hc' with rfl | hc'
        · simpa using hm
        · exact hpre c' hc'
      · simp [bump_usage, hm, hbump]

/-- Claim C5: a failing `apply_coupon` returns the coupon table
unchanged; a successful one rewrites exactly the matched coupon,
bumping `usage_count` (absent read as 0) by exactly 1 and keeping every
other field and every other row unchanged. -/
theorem apply_coupon_usage_spec (today code : String) (s : ℚ)
    (cs : List Coupon) :
    (∀ e, (apply_coupon today code s cs).1 = .error e →
      (apply_coupon today code s cs).2 = cs) ∧
    (∀ v, (apply_coupon today code s cs).1 = .ok v →
      ∃ pre c post, cs = pre ++ c :: post ∧
        (∀ c' ∈ pre, coupon_matches (py_upper code) c' = false) ∧
        coupon_matches (py_upper code) c = true ∧
        (apply_coupon today code s cs).2 =
          pre ++ { c with usage_count := some (c.usage_count.getD 0 + 1) } ::
            post) := by
  cases hf : cs.find? (coupon_matches (py_upper code)) with
  | none => simp [apply_coupon, hf]
  | some c =>
    have hmatch : coupon_matches (py_upper code) c = true := List.find?_some hf
    by_cases h1 : expiry_passed today c
    · simp [apply_coupon, hf, h1]
    · by_cases h2 : below_min_cart s c
      · simp [apply_coupon, hf, h1, h2]
      · by_cases h3 : usage_limit_reached c
        · simp [apply_coupon, hf, h1, h2, h3]
        · obtain ⟨pre, post, hsplit, hpre, hbump⟩ :=
            find?_bump_usage_decomp (py_upper code) cs c hf
          simp only [apply_coupon, hf, h1, h2, h3, if_false, if_true,
            Bool.false_eq_true, ite_false]
          constructor
          · intro e he
            simp at he
          · intro v _
            exact ⟨pre, c, post, hsplit, hpre, hmatch, by
              simpa [increment_usage] using hbump⟩

theorem apply_coupon_usage_spec_witness :
    ∃ pre c post,
      ([⟨"A", "fixed", 5, none, true, none, none, none⟩] : List Coupon) =
        pre ++ c :: post ∧
      (∀ c' ∈ pre, coupon_matches (py_upper "a") c' = false) ∧
      coupon_matches (py_upper "a") c = true ∧
      (apply_coupon "2026-01-01" "a" 50
          [⟨"A", "fixed", 5, none, true, none, none, none⟩]).2 =
        pre ++ { c with usage_count := some (c.usage_count.getD 0 + 1) } ::
          post :=
  (apply_coupon_usage_spec "2026-01-01" "a" 50
      [⟨"A", "fixed", 5, none, true, none, none, none⟩]).2
    (5, "fixed", "A") (by
      have hup : py_upper "a" = "A" := by decide
      simp only [apply_coupon, List.find?, hup, coupon_matches]
      norm_num [expiry_passed, below_min_cart, usage_limit_reached,
        coupon_discount, min_def]
      all_goals decide)

/-- Unfolding of the product lookup over a cons cell. -/
theorem find_product_cons (p : Product) (rest : List Product) (pid : ℕ) :
    find_product (p :: rest) pid =
      if p.id = pid then some p else find_product rest pid := by
  unfold find_product
  by_cases h : p.id = pid
  · rw [List.find?_cons_of_pos _ (by simp [h]), if_pos h]
  · rw [List.find?_cons_of_neg _ (by simp [h]), if_neg h]

/-- Updating a product row by id commutes with lookup: the updated id
resolves to the rewritten row, every other id is untouched (the update
functions used here never change the id). -/
theorem find_product_update_product (ps : List Product) (pid : ℕ)
    (f : Product → Product) (hid : ∀ p, (f p).id = p.id) (pid' : ℕ) :
    find_product (update_product ps pid f) pid' =
      if pid' = pid then (find_product ps pid).map f
      else find_product ps pid' := by
  induction ps with
  | nil => simp [update_product, find_product]
  | cons p rest ih =>
    by_cases hpp : pid' = pid
    · subst hpp
      rw [if_pos rfl]
      have ih' : find_product (update_product rest pid' f) pid' =
          (find_product rest pid').map f := by simpa using ih
      by_cases hp : p.id = pid'
      · rw [show update_product (p :: rest) pid' f = f p :: rest by
          simp [update_product, hp],
          find_product_cons, find_product_cons, if_pos hp,
          if_pos (by rw [hid p]; exact hp)]
        rfl
      · rw [show update_product (p :: rest) pid' f =
              p :: update_product rest pid' f by
            simp [update_product, hp],
          find_product_cons, find_product_cons, if_neg hp, if_neg hp, ih']
    · rw [if_neg hpp]
      by_cases hp : p.id = pid
      · rw [show update_product (p :: rest) pid f = f p :: rest by
          simp [update_product, hp],
          find_product_cons, find_product_cons]
        have h1 : ¬ (f p).id = pid' := by
          rw [hid p, hp]
          exact fun h => hpp h.symm
        have h2 : ¬ p.id = pid' := by
          rw [hp]
          exact fun h => hpp h.symm
        rw [if_neg h1, if_neg h2]
      · rw [show update_product (p :: rest) pid f =
              p :: update_product rest pid f by
            simp [update_product, hp],
          find_product_cons, find_product_cons]
        by_cases hph : p.id = pid'
        · rw [if_pos hph, if_pos hph]
        · rw [if_neg hph, if_neg hph, ih, if_neg hpp]

/-- If some cart item is understocked against the entry table, the
checkout loop aborts with an out-of-stock error (stock only decreases
along the loop, so the understocked item can never pass its check). -/
theorem checkout_items_insufficient (items : List CartItem)
    (ps : List Product)
    (hq : ∀ i ∈ items, 0 < i.quantity)
    (hp : ∀ i ∈ items, (find_product ps i.product_id).isSome)
    (hbad : ∃ i ∈ items, ∃ p, find_product ps i.product_id = some p ∧
      p.stock < i.quantity) :
    ∃ name, checkout_items items ps = .error (.outOfStock name) := by
  induction items generalizing ps with
  | nil =>
    obtain ⟨i, hi, _⟩ := hbad
    simp at hi
  | cons i rest ih =>
    obtain ⟨p, hfind⟩ : ∃ p, find_product ps i.product_id = some p := by
      have h := hp i (List.mem_cons_self i rest)
      rwa [Option.isSome_iff_exists] at h
    by_cases hchk : p.stock < i.quantity
    · exact ⟨p.name, by simp [checkout_items, hfind, hchk]⟩
    · have hupd := find_product_update_product ps i.product_id
        (fun q => { q with stock := q.stock - i.quantity }) (fun _ => rfl)
      obtain ⟨j, hj, pj, hpj, hlt⟩ := hbad
      have hjrest : j ∈ rest := by
        rcases List.mem_cons.mp hj with rfl | h
        · rw [hfind] at hpj
          injection hpj with h'
          subst h'
          exact absurd hlt hchk
        · exact h
      have hq' : ∀ k ∈ rest, 0 < k.quantity :=
        fun k hk => hq k (List.mem_cons_of_mem _ hk)
      have hp' : ∀ k ∈ rest,
          (find_product (update_product ps i.product_id
            (fun q => { q with stock := q.stock - i.quantity }))
            k.product_id).isSome := by
        intro k hk
        rw [hupd k.product_id]
        by_cases hkp : k.product_id = i.product_id
        · rw [if_pos hkp, hfind]
          rfl
        · rw [if_neg hkp]
          exact hp k (List.mem_cons_of_mem _ hk)
      have hbad' : ∃ k ∈ rest, ∃ pk,
          find_product (update_product ps i.product_id
            (fun q => { q with stock := q.stock - i.quantity }))
            k.product_id = some pk ∧ pk.stock < k.quantity := by
        refine ⟨j, hjrest, ?_⟩
        rw [hupd j.product_id]
        by_cases hjp : j.product_id = i.product_id
        · rw [if_pos hjp]
          rw [hjp] at hpj
          rw [hfind] at hpj
          injection hpj with h'
          subst h'
          refine ⟨{ p with stock := p.stock - i.quantity },
            by rw [hfind]; rfl, ?_⟩
          have hqi : 0 < i.quantity := hq i (List.mem_cons_self i rest)
          simp only
          omega
        · rw [if_neg hjp]
          exact ⟨pj, hpj, hlt⟩
      obtain ⟨name, herr⟩ := ih _ hq' hp' hbad'
      exact ⟨name, by simp [checkout_items, hfind, hchk, herr]⟩

/-- If every cart item has enough stock (against the entry table) and
cart items reference pairwise distinct products, the checkout loop
succeeds with the raw total, the per-item snapshots at entry prices,
and exactly the per-item stock decrements. -/
theorem checkout_items_ok (items : List CartItem) (ps : List Product)
    (hnd : (items.map (fun i => i.product_id)).Nodup)
    (hok : ∀ i ∈ items, ∃ p, find_product ps i.product_id = some p ∧
      i.quantity ≤ p.stock) :
    ∃ ps', checkout_items items ps =
      .ok ((items.map (fun i =>
              price_at ps i.product_id * (i.quantity : ℚ))).sum,
           items.map (fun i =>
             OrderItem.mk i.product_id i.quantity (price_at ps i.product_id)),
           ps') ∧
      (∀ i ∈ items, find_product ps' i.product_id =
        (find_product ps i.product_id).map
          (fun p => { p with stock := p.stock - i.quantity })) ∧
      (∀ pid, pid ∉ items.map (fun i => i.product_id) →
        find_product ps' pid = find_product ps pid) := by
  induction items generalizing ps with
  | nil =>
    exact ⟨ps, by simp [checkout_items], by simp, fun _ _ => rfl⟩
  | cons i rest ih =>
    obtain ⟨p, hfind, hstock⟩ := hok i (List.mem_cons_self i rest)
    have hchk : ¬ p.stock < i.quantity := not_lt.mpr hstock
    have hupd := find_product_update_product ps i.product_id
      (fun q => { q with stock := q.stock - i.quantity }) (fun _ => rfl)
    obtain ⟨hni, hndrest⟩ := List.nodup_cons.mp hnd
    have hne : ∀ k ∈ rest, k.product_id ≠ i.product_id := by
      intro k hk hkp
      have hmem : k.product_id ∈ List.map (fun x => x.product_id) rest :=
        List.mem_map_of_mem (fun x => x.product_id) hk
      rw [hkp] at hmem
      exact hni hmem
    have hok' : ∀ k ∈ rest, ∃ pk,
        find_product (update_product ps i.product_id
          (fun q => { q with stock := q.stock - i.quantity }))
          k.product_id = some pk ∧ k.quantity ≤ pk.stock := by
      intro k hk
      rw [hupd k.product_id, if_neg (hne k hk)]
      exact hok k (List.mem_cons_of_mem _ hk)
    obtain ⟨ps', hrec, hin, hout⟩ := ih _ hndrest hok'
    have hpr : ∀ k ∈ rest,
        price_at (update_product ps i.product_id
          (fun q => { q with stock := q.stock - i.quantity }))
          k.product_id = price_at ps k.product_id := by
      intro k hk
      unfold price_at
      rw [hupd k.product_id, if_neg (hne k hk)]
    have hpi : price_at ps i.product_id = p.price := by
      unfold price_at
      rw [hfind]
      rfl
    refine ⟨ps', ?_, ?_, ?_⟩
    · have hmap1 : rest.map (fun k =>
          price_at (update_product ps i.product_id
            (fun q => { q with stock := q.stock - i.quantity }))
            k.product_id * (k.quantity : ℚ)) =
          rest.map (fun k => price_at ps k.product_id * (k.quantity : ℚ)) :=
        List.map_congr_left (fun k hk => by rw [hpr k hk])
      have hmap2 : rest.map (fun k =>
          OrderItem.mk k.product_id k.quantity
            (price_at (update_product ps i.product_id
              (fun q => { q with stock := q.stock - i.quantity }))
              k.product_id)) =
          rest.map (fun k =>
            OrderItem.mk k.product_id k.quantity
              (price_at ps k.product_id)) :=
        List.map_congr_left (fun k hk => by rw [hpr k hk])
      simp only [checkout_items, hfind, hchk, if_false]
      rw [hrec]
      simp only [List.map_cons, List.sum_cons, hmap1, hmap2, hpi]
    · intro k hk
      rcases List.mem_cons.mp hk with rfl | hkr
      · rw [hout k.product_id (by
          intro hmem
          obtain ⟨k', hk', hkeq⟩ := List.mem_map.mp hmem
          exact hne k' hk' hkeq)]
        rw [hupd k.product_id, if_pos rfl]
      · rw [hin k hkr, hupd k.product_id, if_neg (hne k hkr)]
    · intro pid hpid
      simp only [List.map_cons, List.mem_cons, not_or] at hpid
      obtain ⟨hpid1, hpid2⟩ := hpid
      rw [hout pid hpid2, hupd pid, if_neg hpid1]

/-- Claim C1: when some cart item is understocked, checkout fails with
the out-of-stock error and the stored state — in particular every
product's stock, including products of earlier items whose own check
passed — is exactly the entry state (no partial decrement is
committed). -/
theorem place_order_insufficient_stock_spec (aid : ℕ) (pm ts : String)
    (db : DB)
    (hq : ∀ i ∈ db.cartItems, 0 < i.quantity)
    (hp : ∀ i ∈ db.cartItems, (find_product db.products i.product_id).isSome)
    (hbad : ∃ i ∈ db.cartItems, ∃ p,
      find_product db.products i.product_id = some p ∧
      p.stock < i.quantity) :
    (∃ name, (place_order aid pm ts db).1 = .error (.outOfStock name)) ∧
    (place_order aid pm ts db).2 = db := by
  obtain ⟨name, herr⟩ :=
    checkout_items_insufficient db.cartItems db.products hq hp hbad
  have hne : db.cartItems.isEmpty = false := by
    rcases hbad with ⟨i, hi, _⟩
    cases hcart : db.cartItems with
    | nil =>
      rw [hcart] at hi
      simp at hi
    | cons a l => rfl
  exact ⟨⟨name, by simp [place_order, hne, herr]⟩,
    by simp [place_order, hne, herr]⟩

theorem place_order_insufficient_stock_spec_witness :
    (∃ name, (place_order 1 "COD" "2026-01-01"
        ⟨[⟨1, "A", 100, 2, 0, 0⟩, ⟨2, "B", 50, 0, 0, 0⟩],
         [⟨1, 1, 2⟩, ⟨2, 2, 1⟩], [], [], none, []⟩).1 =
      .error (.outOfStock name)) ∧
    (place_order 1 "COD" "2026-01-01"
        ⟨[⟨1, "A", 100, 2, 0, 0⟩, ⟨2, "B", 50, 0, 0, 0⟩],
         [⟨1, 1, 2⟩, ⟨2, 2, 1⟩], [], [], none, []⟩).2 =
      ⟨[⟨1, "A", 100, 2, 0, 0⟩, ⟨2, "B", 50, 0, 0, 0⟩],
       [⟨1, 1, 2⟩, ⟨2, 2, 1⟩], [], [], none, []⟩ :=
  place_order_insufficient_stock_spec 1 "COD" "2026-01-01" _
    (by decide) (by decide)
    ⟨⟨2, 2, 1⟩, by decide, ⟨2, "B", 50, 0, 0, 0⟩, rfl, by decide⟩

/-- Claim C2: a non-empty cart of pairwise-distinct products, each with
sufficient stock, checks out into an order with the raw total
`Σ price × quantity`, status `"Pending"`, per-item snapshots at the
checkout-time prices, stock decremented by exactly each item's
quantity, and an emptied cart. -/
theorem place_order_success_spec (aid : ℕ) (pm ts : String) (db : DB)
    (hne : db.cartItems ≠ [])
    (hnd : (db.cartItems.map (fun i => i.product_id)).Nodup)
    (hok : ∀ i ∈ db.cartItems, ∃ p,
      find_product db.products i.product_id = some p ∧
      i.quantity ≤ p.stock) :
    ∃ order db', place_order aid pm ts db = (.ok order, db') ∧
      order.total_amount = (db.cartItems.map (fun i =>
        price_at db.products i.product_id * (i.quantity : ℚ))).sum ∧
      order.status = "Pending" ∧
      order.items = db.cartItems.map (fun i =>
        OrderItem.mk i.product_id i.quantity
          (price_at db.products i.product_id)) ∧
      db'.cartItems = [] ∧
      (∀ i ∈ db.cartItems, find_product db'.products i.product_id =
        (find_product db.products i.product_id).map
          (fun p => { p with stock := p.stock - i.quantity })) := by
  obtain ⟨ps', hrec, hin, hout⟩ :=
    checkout_items_ok db.cartItems db.products hnd hok
  have hnee : db.cartItems.isEmpty = false := by
    cases h : db.cartItems with
    | nil => exact absurd h hne
    | cons a l => rfl
  refine ⟨⟨aid, (db.cartItems.map (fun i =>
      price_at db.products i.product_id * (i.quantity : ℚ))).sum, pm,
      "Pending", ts, db.cartItems.map (fun i =>
      OrderItem.mk i.product_id i.quantity
        (price_at db.products i.product_id))⟩,
    { db with products := ps', cartItems := [] },
    ?_, rfl, rfl, rfl, rfl, fun i hi => hin i hi⟩
  simp [place_order, hnee, hrec]

theorem place_order_success_spec_witness :
    ∃ order db', place_order 1 "COD" "2026-01-01"
        ⟨[⟨1, "Teddy", 250, 5, 0, 0⟩], [⟨1, 1, 2⟩], [], [], none, []⟩ =
        (.ok order, db') ∧
      order.total_amount = (([⟨1, 1, 2⟩] : List CartItem).map (fun i =>
        price_at [⟨1, "Teddy", 250, 5, 0, 0⟩] i.product_id *
          (i.quantity : ℚ))).sum ∧
      order.status = "Pending" ∧
      order.items = ([⟨1, 1, 2⟩] : List CartItem).map (fun i =>
        OrderItem.mk i.product_id i.quantity
          (price_at [⟨1, "Teddy", 250, 5, 0, 0⟩] i.product_id)) ∧
      db'.cartItems = [] ∧
      (∀ i ∈ ([⟨1, 1, 2⟩] : List CartItem),
        find_product db'.products i.product_id =
        (find_product [⟨1, "Teddy", 250, 5, 0, 0⟩] i.product_id).map
          (fun p => { p with stock := p.stock - i.quantity })) :=
  place_order_success_spec 1 "COD" "2026-01-01"
    ⟨[⟨1, "Teddy", 250, 5, 0, 0⟩], [⟨1, 1, 2⟩], [], [], none, []⟩
    (by decide) (by decide)
    (by
      intro i hi
      rw [List.mem_singleton] at hi
      subst hi
      exact ⟨⟨1, "Teddy", 250, 5, 0, 0⟩, rfl, by decide⟩)

/-- A failing `apply_coupon` call raises before the mutation, so the
coupon table it leaves behind is the entry table. -/
theorem apply_coupon_error_table (today code : String) (s : ℚ)
    (cs : List Coupon) (e : CouponError)
    (h : (apply_coupon today code s cs).1 = .error e) :
    (apply_coupon today code s cs).2 = cs := by
  cases hf : cs.find? (coupon_matches (py_upper code)) with
  | none => simp [apply_coupon, hf]
  | some c =>
    by_cases h1 : expiry_passed today c = true
    · simp [apply_coupon, hf, h1]
    · by_cases h2 : below_min_cart s c = true
      · simp [apply_coupon, hf, h1, h2]
      · by_cases h3 : usage_limit_reached c = true
        · simp [apply_coupon, hf, h1, h2, h3]
        · exfalso
          have hok : (apply_coupon today code s cs).1 =
              .ok (coupon_discount s c, c.discount_type, c.code) := by
            simp [apply_coupon, hf, h1, h2, h3]
          rw [hok] at h
          simp at h

/-- Claim C6: on a non-empty cart, a coupon code that fails validation
is swallowed: the summary call returns exactly what the no-coupon call
returns — same summary, discount 0, database unchanged. -/
theorem get_cart_summary_coupon_soft_fail (uid : ℕ) (today code : String)
    (db : DB) (hne : db.cartItems.isEmpty = false)
    (s : ℚ) (hsub : cart_subtotal db.cartItems db.products = some s)
    (e : CouponError)
    (herr : (apply_coupon today code s db.coupons).1 = .error e) :
    get_cart_summary uid today db (some code) =
      get_cart_summary uid today db none ∧
    ∃ summary, get_cart_summary uid today db (some code) =
      some (summary, db) ∧ summary.discount = 0 := by
  have htab := apply_coupon_error_table today code s db.coupons e herr
  have hpair : apply_coupon today code s db.coupons =
      (.error e, db.coupons) := by
    cases hx : apply_coupon today code s db.coupons with
    | mk fst snd =>
      rw [hx] at herr htab
      simp only at herr htab
      rw [herr, htab]
  constructor
  · simp [get_cart_summary, hne, hsub, hpair]
  · refine ⟨⟨round2 s,
      round2 (calculate_shipping s uid db.couponUsages),
      round2 (calculate_tax s 0),
      round2 0,
      round2 (s - 0 + calculate_shipping s uid db.couponUsages +
        calculate_tax s 0),
      db.cartItems.length,
      calculate_shipping s uid db.couponUsages == 0,
      (db.settings.map (fun st => st.is_gift)).getD false,
      db.settings.bind (fun st => st.gift_message),
      none⟩, ?_, ?_⟩
    · simp [get_cart_summary, hne, hsub, hpair]
    · simp [round2]

theorem get_cart_summary_coupon_soft_fail_witness :
    get_cart_summary 1 "2026-01-01"
        ⟨[⟨1, "P", 250, 5, 0, 0⟩], [⟨1, 1, 2⟩], [], [], none, []⟩
        (some "BAD") =
      get_cart_summary 1 "2026-01-01"
        ⟨[⟨1, "P", 250, 5, 0, 0⟩], [⟨1, 1, 2⟩], [], [], none, []⟩ none ∧
    ∃ summary, get_cart_summary 1 "2026-01-01"
        ⟨[⟨1, "P", 250, 5, 0, 0⟩], [⟨1, 1, 2⟩], [], [], none, []⟩
        (some "BAD") =
      some (summary,
        ⟨[⟨1, "P", 250, 5, 0, 0⟩], [⟨1, 1, 2⟩], [], [], none, []⟩) ∧
      summary.discount = 0 :=
  get_cart_summary_coupon_soft_fail 1 "2026-01-01" "BAD"
    ⟨[⟨1, "P", 250, 5, 0, 0⟩], [⟨1, 1, 2⟩], [], [], none, []⟩ rfl
    500
    (by
      show cart_subtotal [⟨1, 1, 2⟩] [⟨1, "P", 250, 5, 0, 0⟩] = some 500
      simp [cart_subtotal, find_product, List.find?]
      norm_num)
    .couponNotFound rfl

/-- Claim C9: an accepted review for a product with prior average `a`
and count `n` stores average `round((a*n + rating)/(n+1), 1)` and
count `n+1`. -/
theorem add_product_review_spec (pid uid : ℕ) (r : ℤ) (db : DB)
    (p : Product)
    (hfind : find_product db.products pid = some p)
    (hnew : db.reviews.any (fun rr => rr.product_id == pid &&
      rr.user_id == uid) = false) :
    ∃ rev db', add_product_review pid uid r db = (.ok rev, db') ∧
      find_product db'.products pid = some
        { p with
            average_rating := round1
              ((p.average_rating * (p.review_count : ℚ) + (r : ℚ)) /
                ((p.review_count : ℚ) + 1)),
            review_count := p.review_count + 1 } := by
  have heq : add_product_review pid uid r db =
      (.ok ⟨pid, uid, r⟩,
       { db with
          products := update_product db.products pid
            (fun q => { q with
              average_rating := round1
                ((p.average_rating * (p.review_count : ℚ) + (r : ℚ)) /
                  ((p.review_count + 1 : ℕ) : ℚ)),
              review_count := p.review_count + 1 }),
          reviews := db.reviews ++ [⟨pid, uid, r⟩] }) := by
    simp [add_product_review, hfind, hnew]
  refine ⟨⟨pid, uid, r⟩, _, heq, ?_⟩
  show find_product (update_product db.products pid _) pid = _
  rw [find_product_update_product db.products pid
    (fun q => { q with
      average_rating := round1
        ((p.average_rating * (p.review_count : ℚ) + (r : ℚ)) /
          ((p.review_count + 1 : ℕ) : ℚ)),
      review_count := p.review_count + 1 })
    (fun _ => rfl) pid, if_pos rfl, hfind]
  push_cast
  rfl

theorem add_product_review_spec_witness :
    ∃ rev db', add_product_review 1 7 5
        ⟨[⟨1, "P", 250, 5, 4, 3⟩], [], [], [], none, []⟩ = (.ok rev, db') ∧
      find_product db'.products 1 = some
        (⟨1, "P", 250, 5,
          round1 ((4 * ((3 : ℕ) : ℚ) + ((5 : ℤ) : ℚ)) / (((3 : ℕ) : ℚ) + 1)),
          3 + 1⟩ : Product) :=
  add_product_review_spec 1 7 5
    ⟨[⟨1, "P", 250, 5, 4, 3⟩], [], [], [], none, []⟩
    ⟨1, "P", 250, 5, 4, 3⟩ rfl rfl

/-- Updating the quantity of the cart-item row with a given id makes
its lookup resolve to the same row with the new quantity. -/
theorem find_set_cart_item_qty (items : List CartItem) (iid : ℕ) (q : ℤ)
    (it : CartItem)
    (h : items.find? (fun i => i.id == iid) = some it) :
    (set_cart_item_qty items iid q).find? (fun i => i.id == iid) =
      some { it with quantity := q } := by
  induction items with
  | nil => simp at h
  | cons a rest ih =>
    by_cases ha : a.id = iid
    · rw [List.find?_cons_of_pos _ (by simp [ha])] at h
      injection h with h'
      subst h'
      rw [show set_cart_item_qty (a :: rest) iid q =
          { a with quantity := q } :: rest by simp [set_cart_item_qty, ha]]
      rw [List.find?_cons_of_pos _ (by simp [ha])]
    · rw [List.find?_cons_of_neg _ (by simp [ha])] at h
      rw [show set_cart_item_qty (a :: rest) iid q =
          a :: set_cart_item_qty rest iid q by simp [set_cart_item_qty, ha]]
      rw [List.find?_cons_of_neg _ (by simp [ha])]
      exact ih h

/-- Claim C10: a quantity update on an existing cart item deletes the
row (reporting "Item removed") when the requested quantity is ≤ 0, and
stores exactly the requested quantity when it is positive. -/
theorem update_cart_item_quantity_spec (iid : ℕ) (q : ℤ) (db : DB)
    (it : CartItem)
    (hfind : db.cartItems.find? (fun i => i.id == iid) = some it) :
    (q ≤ 0 →
      update_cart_item_quantity iid q db =
        (.ok "Item removed",
         { db with cartItems :=
            db.cartItems.filter (fun i => !(i.id == iid)) }) ∧
      (∀ j ∈ (update_cart_item_quantity iid q db).2.cartItems,
        j.id ≠ iid)) ∧
    (0 < q →
      update_cart_item_quantity iid q db =
        (.ok "Quantity updated",
         { db with cartItems := set_cart_item_qty db.cartItems iid q }) ∧
      (update_cart_item_quantity iid q db).2.cartItems.find?
        (fun i => i.id == iid) = some { it with quantity := q }) := by
  constructor
  · intro hq
    have hngt : ¬ 0 < q := not_lt.mpr hq
    have heq : update_cart_item_quantity iid q db =
        (.ok "Item removed",
         { db with cartItems :=
            db.cartItems.filter (fun i => !(i.id == iid)) }) := by
      simp [update_cart_item_quantity, hfind, hngt]
    refine ⟨heq, ?_⟩
    rw [heq]
    intro j hj
    simp only [List.mem_filter] at hj
    obtain ⟨-, hj2⟩ := hj
    simpa using hj2
  · intro hq
    have heq : update_cart_item_quantity iid q db =
        (.ok "Quantity updated",
         { db with cartItems := set_cart_item_qty db.cartItems iid q }) := by
      simp [update_cart_item_quantity, hfind, hq]
    refine ⟨heq, ?_⟩
    rw [heq]
    exact find_set_cart_item_qty db.cartItems iid q it hfind

theorem update_cart_item_quantity_spec_witness :
    ((0 : ℤ) ≤ 0 ∧
      (update_cart_item_quantity 1 0 ⟨[], [⟨1, 10, 2⟩], [], [], none, []⟩ =
        (.ok "Item removed",
         ⟨[], ([⟨1, 10, 2⟩] : List CartItem).filter
            (fun i => !(i.id == 1)), [], [], none, []⟩) ∧
       ∀ j ∈ (update_cart_item_quantity 1 0
          ⟨[], [⟨1, 10, 2⟩], [], [], none, []⟩).2.cartItems,
         j.id ≠ 1)) ∧
    ((0 : ℤ) < 3 ∧
      (update_cart_item_quantity 1 3 ⟨[], [⟨1, 10, 2⟩], [], [], none, []⟩ =
        (.ok "Quantity updated",
         ⟨[], set_cart_item_qty ([⟨1, 10, 2⟩] : List CartItem) 1 3,
          [], [], none, []⟩) ∧
       (update_cart_item_quantity 1 3
          ⟨[], [⟨1, 10, 2⟩], [], [], none, []⟩).2.cartItems.find?
         (fun i => i.id == 1) =
         some (⟨1, 10, 3⟩ : CartItem))) :=
  ⟨⟨le_refl 0,
    (update_cart_item_quantity_spec 1 0 ⟨[], [⟨1, 10, 2⟩], [], [], none, []⟩
      ⟨1, 10, 2⟩ rfl).1 (le_refl 0)⟩,
   ⟨by norm_num,
    (update_cart_item_quantity_spec 1 3 ⟨[], [⟨1, 10, 2⟩], [], [], none, []⟩
      ⟨1, 10, 2⟩ rfl).2 (by norm_num)⟩⟩

end Snuggle
